import Mathlib

/-!
Verification of the realtime audio-streaming protocol engine in
`src/utils/azureRealtimeWebSocket.js` (class AzureRealtimeWebSocketService).

The session state, the transport-event vocabulary and every operation below are
shallow embeddings of the JavaScript source.  Machine floats are modelled as
rationals; the source's `rms < threshold` test (rms computed with a square
root) is embedded as the equivalent square-free comparison
`0 ≤ threshold ∧ rmsSq < threshold^2`.  The cooperative single-threaded event
loop is modelled as a step function over an explicit event alphabet: one
constructor per inbound WebSocket message handled by `handleWebSocketMessage`,
plus the commit-timer callback of `scheduleCommit` and the caller-facing
`sendAudio` entry point.  Within one synchronous call the socket's ready state
cannot change, so every `send` in a single step shares the outcome of
`sendOK`.
-/

namespace CD

/-- Observable outbound transport events (the `type` field of each message
passed to `send`).  An audio append carries its payload size in bytes. -/
inductive TEvent where
  | sessionUpdate
  | appendAudio (bytes : Nat)
  | commit
  | itemCreate
  | responseCreate
deriving Repr, DecidableEq

/-- The per-session metrics counters initialised in the constructor. -/
structure Metrics where
  audioChunksAccepted : Nat
  audioChunksSkipped : Nat
  commitsAttempted : Nat
  responsesRequested : Nat
  emptyCommitWarnings : Nat
deriving Repr, DecidableEq

/-- `this.pendingCommitRequest`: the deferred `{force, reason}` record. -/
structure CommitReq where
  force : Bool
  reason : String
deriving Repr, DecidableEq

/-- A scheduled commit timer (`this.commitTimer`), keyed by the options
passed to `scheduleCommit`. -/
structure TimerReq where
  delay : Nat
  force : Bool
  reason : String
deriving Repr, DecidableEq

/-- An audio chunk: a list of signed 16-bit PCM samples.  The JS `Buffer`
holds two bytes per sample (little-endian int16). -/
abbrev Chunk := List Int

/-- Byte length of a chunk (`buffer.length` in the source). -/
def byteLen (c : Chunk) : Nat := 2 * c.length

/-- The mutable fields of `AzureRealtimeWebSocketService` that the protocol
engine reads or writes, with the constructor's field names. -/
structure SessionState where
  isConnected : Bool
  isInitialized : Bool
  socketPresent : Bool
  socketOpen : Bool
  textBuffer : String
  lastPublishedLength : Nat
  lastLoggedLength : Nat
  responseDelivered : Bool
  minCommitBytes : Nat
  forceCommitBytes : Nat
  audioBuffer : List Chunk
  minAudioChunkBytes : Nat
  commitTimeoutMs : Nat
  isCommitting : Bool
  responseInProgress : Bool
  commitTimer : Option TimerReq
  speechActive : Bool
  commitGracePeriodMs : Nat
  hasNewAudioSinceLastCommit : Bool
  pauseForEmptyCommit : Bool
  pendingCommitRequest : Option CommitReq
  pendingAudioBytes : Nat
  silenceRmsThreshold : ℚ
  disableSilenceGate : Bool
  metrics : Metrics
deriving Repr, DecidableEq

/-- The constructor's default silence RMS threshold 0.008 = 1/125, written
in normalised constructor form so that kernel evaluation of comparisons
remains possible. -/
def qThresholdDefault : ℚ := ⟨1, 125, by norm_num, Nat.coprime_one_left 125⟩

/-- The spec's silence RMS floor default 0.001 = 1/1000, in normalised
constructor form. -/
def qFloorDefault : ℚ := ⟨1, 1000, by norm_num, Nat.coprime_one_left 1000⟩

lemma qThresholdDefault_eq : qThresholdDefault = 8 / 1000 := by
  rw [qThresholdDefault, Rat.mk'_eq_divInt, Rat.divInt_eq_div]; norm_num

lemma qFloorDefault_eq : qFloorDefault = 1 / 1000 := by
  rw [qFloorDefault, Rat.mk'_eq_divInt, Rat.divInt_eq_div]; norm_num

/-- Constructor defaults (lines 716-751 of the source). -/
def initState : SessionState where
  isConnected := false
  isInitialized := false
  socketPresent := false
  socketOpen := false
  textBuffer := ""
  lastPublishedLength := 0
  lastLoggedLength := 0
  responseDelivered := false
  minCommitBytes := 6400
  forceCommitBytes := 48000
  audioBuffer := []
  minAudioChunkBytes := 16000
  commitTimeoutMs := 500
  isCommitting := false
  responseInProgress := false
  commitTimer := none
  speechActive := false
  commitGracePeriodMs := 80
  hasNewAudioSinceLastCommit := false
  pauseForEmptyCommit := false
  pendingCommitRequest := none
  pendingAudioBytes := 0
  silenceRmsThreshold := qThresholdDefault
  disableSilenceGate := false
  metrics := ⟨0, 0, 0, 0, 0⟩

/-- `send` succeeds iff the socket exists and its ready state is OPEN. -/
def sendOK (s : SessionState) : Bool := s.socketPresent && s.socketOpen

/-- One `send` call: emits the event iff the socket is writable, returning
the source's boolean result. -/
def sendEv (s : SessionState) (e : TEvent) : Bool × List TEvent :=
  if sendOK s then (true, [e]) else (false, [])

/-- Sum of squared samples, as in the loop of `calculateRms`. -/
def sumSquares (c : Chunk) : Int := c.foldl (fun a x => a + x * x) 0

/-- The square of `calculateRms`.  The source computes
`sqrt(sum((sample/32768)^2) / max(sampleCount, 1))`; squaring gives
`sumSquares / (32768^2 * max n 1)`, which is what we embed (a short buffer,
fewer than two bytes, yields 0, matching the `n = 0` case here). -/
def rmsSq (c : Chunk) : ℚ :=
  (sumSquares c : ℚ) / ((32768 : ℚ) ^ 2 * (max c.length 1 : ℚ))

/-- `isAudioSilent` (lines 945-961) without its logging side effects: the
gate is disabled, or `rms < silenceRmsThreshold`.  Since `rms ≥ 0`, the
comparison `rms < t` is equivalent to `0 ≤ t ∧ rms^2 < t^2`, the square-free
form used here. -/
def isAudioSilent (s : SessionState) (c : Chunk) : Bool :=
  if s.disableSilenceGate then false
  else decide (0 ≤ s.silenceRmsThreshold ∧ rmsSq c < s.silenceRmsThreshold ^ 2)

/-- `getBufferedAudioBytes` (lines 1253-1258), including the one-chunk
fast path. -/
def getBufferedAudioBytes (buf : List Chunk) : Nat :=
  match buf with
  | [c] => byteLen c
  | _ => (buf.map byteLen).sum

/-- `scheduleCommit` (lines 1267-1310): skip without new audio unless forced,
otherwise clear and re-arm the single commit timer.  The timer callback body
is the `.timerFire` case of `step`. -/
def scheduleCommit (s : SessionState) (r : TimerReq) : SessionState :=
  if !s.hasNewAudioSinceLastCommit && !r.force then s
  else { s with commitTimer := some r }

/-- Total bytes of a chunk accumulator. -/
def chunkBytes (l : List Chunk) : Nat := (l.map byteLen).sum

/-- The chunking loop of `sendBufferedAudioChunks` (lines 1322-1350): group
buffered chunks into appends of at least `minBytes`, then flush the
leftover accumulator.  Every `send` here succeeds because the caller has
already checked `sendOK`. -/
def chunkAppendEvents (minBytes : Nat) : List Chunk → List Chunk → List TEvent
  | [], acc => if acc.isEmpty then [] else [TEvent.appendAudio (chunkBytes acc)]
  | c :: rest, acc =>
      let acc' := acc ++ [c]
      if minBytes ≤ chunkBytes acc' then
        TEvent.appendAudio (chunkBytes acc') :: chunkAppendEvents minBytes rest []
      else chunkAppendEvents minBytes rest acc'

/-- `sendBufferedAudioChunks` (lines 1312-1353): fails (dropping nothing
itself) when the socket is not open; an empty buffer succeeds vacuously. -/
def sendBufferedAudioChunks (s : SessionState) : Bool × List TEvent :=
  if !(sendOK s) then (false, [])
  else if s.audioBuffer.isEmpty then (true, [])
  else (true, chunkAppendEvents s.minAudioChunkBytes s.audioBuffer [])

/-- The `try` block of `commitAudioBufferAndCreateResponse`
(lines 1396-1453): socket check, buffered appends, the commit event, the
conversation item, and the guarded `response.create`.  The send-failure
branches mirror the source; within the synchronous block they all share the
single `sendOK` outcome. -/
def commitBody (s : SessionState) : SessionState × List TEvent :=
  if !(sendOK s) then (s, [])
  else
    let sent := sendBufferedAudioChunks s
    if sent.1 = false then (s, sent.2)
    else
      let cm := sendEv s TEvent.commit
      if cm.1 = false then (s, sent.2 ++ cm.2)
      else
        let item := sendEv s TEvent.itemCreate
        if s.responseInProgress then (s, sent.2 ++ cm.2 ++ item.2)
        else
          let rc := sendEv s TEvent.responseCreate
          if rc.1 = false then (s, sent.2 ++ cm.2 ++ item.2)
          else
            ({ s with responseInProgress := true,
                      metrics := { s.metrics with
                        responsesRequested := s.metrics.responsesRequested + 1 } },
             sent.2 ++ cm.2 ++ item.2 ++ rc.2)

/-- `commitAudioBufferAndCreateResponse` (lines 1355-1462): the deferral
guard, busy/pause/no-audio/empty/min-size guards, then the commit body with
the `finally` block that always clears the accumulator. -/
def commitAudio (s : SessionState) (force : Bool) (reason : String) :
    SessionState × List TEvent :=
  if s.responseInProgress then
    ({ s with pendingCommitRequest :=
         if s.pendingCommitRequest.isNone then some ⟨force, reason⟩
         else s.pendingCommitRequest }, [])
  else if s.isCommitting then (s, [])
  else if s.pauseForEmptyCommit && !force then (s, [])
  else if !s.hasNewAudioSinceLastCommit then (s, [])
  else
    let totalBytes := getBufferedAudioBytes s.audioBuffer
    if totalBytes = 0 then (s, [])
    else if !force && decide (totalBytes < s.minCommitBytes) then
      (scheduleCommit s ⟨s.commitTimeoutMs, force, reason⟩, [])
    else
      let s1 := { s with isCommitting := true, commitTimer := none,
                         metrics := { s.metrics with
                           commitsAttempted := s.metrics.commitsAttempted + 1 } }
      let res := commitBody s1
      ({ res.1 with audioBuffer := [], isCommitting := false,
                    hasNewAudioSinceLastCommit := false, pendingAudioBytes := 0 },
       res.2)

/-- `publishTextUpdate` (lines 973-999).  Returns the updated state and the
list of caller-visible emissions (`callbacks.onMessage` invocations). -/
def publishTextUpdate (s : SessionState) (force : Bool) :
    SessionState × List String :=
  if s.textBuffer = "" then (s, [])
  else
    let s :=
      if s.lastLoggedLength < s.textBuffer.length then
        { s with lastLoggedLength := s.textBuffer.length }
      else s
    if !force then (s, [])
    else if s.responseDelivered && decide (s.textBuffer.length = s.lastPublishedLength) then
      (s, [])
    else
      ({ s with lastPublishedLength := s.textBuffer.length, responseDelivered := true },
       [s.textBuffer])

/-- `sendText` (lines 1195-1216): after the initialisation guard (the source
throws when uninitialised; modelled as emitting nothing) it unconditionally
sends a conversation item and a `response.create`, never reading or writing
`responseInProgress`. -/
def sendText (s : SessionState) (_text : String) : SessionState × List TEvent :=
  if !(s.isInitialized && s.socketPresent) then (s, [])
  else (s, (sendEv s TEvent.itemCreate).2 ++ (sendEv s TEvent.responseCreate).2)

/-- `sendAudio` (lines 1218-1251): the silence gate (with its skip counter,
incremented inside `isAudioSilent` in the source), buffering and bookkeeping
for an accepted chunk, then either an immediate threshold commit or the
default timer. -/
def sendAudio (s : SessionState) (c : Chunk) : SessionState × List TEvent :=
  if !(s.isInitialized && s.socketPresent) then (s, [])
  else if isAudioSilent s c then
    ({ s with metrics := { s.metrics with
         audioChunksSkipped := s.metrics.audioChunksSkipped + 1 } }, [])
  else
    let s := { s with
      audioBuffer := s.audioBuffer ++ [c],
      metrics := { s.metrics with
        audioChunksAccepted := s.metrics.audioChunksAccepted + 1 },
      hasNewAudioSinceLastCommit := true,
      pauseForEmptyCommit := false,
      pendingAudioBytes := s.pendingAudioBytes + byteLen c }
    if s.forceCommitBytes ≤ getBufferedAudioBytes s.audioBuffer
        && !s.isCommitting && !s.responseInProgress then
      commitAudio s false ("buffer_threshold")
    else (scheduleCommit s ⟨s.commitTimeoutMs, false, "timer"⟩, [])

/-- The bookkeeping prefix of the `response.done` handler (lines 1141-1156):
clear the in-progress flag, force-publish a non-empty text buffer, then reset
the text assembly state. -/
def doneBookkeep (s : SessionState) : SessionState :=
  let s1 := { s with responseInProgress := false }
  let s2 := if s1.textBuffer = "" then s1 else (publishTextUpdate s1 true).1
  { s2 with textBuffer := "", lastPublishedLength := 0,
            lastLoggedLength := 0, responseDelivered := false }

/-- The event alphabet driving the session: the caller's `sendAudio`, the
commit-timer callback, and each inbound message type handled by
`handleWebSocketMessage` that touches engine state. -/
inductive Ev where
  | audio (c : Chunk)
  | timerFire
  | speechStarted
  | speechStopped
  | committed
  | commitFailed
  | commitNoAudio
  | commitEmpty
  | responseCreated
  | textDelta (d : String)
  | transcriptDone (t : String)
  | contentPartDone (t : String)
  | responseDone
  | responseError
  | errorMsg (activeResponse : Bool)
  | socketClosed
  | socketErrorEv
deriving Repr, DecidableEq

/-- One step of the cooperative event loop, returning the transport events
emitted during the step.  Each case transcribes the corresponding handler of
`handleWebSocketMessage` (lines 1001-1189), the socket close/error callbacks
(lines 799-823), the timer callback of `scheduleCommit`, or `sendAudio`. -/
def step (s : SessionState) (e : Ev) : SessionState × List TEvent :=
  match e with
  | .audio c => sendAudio s c
  | .timerFire =>
      match s.commitTimer with
      | none => (s, [])
      | some r =>
          let s := { s with commitTimer := none }
          if !s.hasNewAudioSinceLastCommit then (s, [])
          else if s.pauseForEmptyCommit && !r.force then (s, [])
          else if s.speechActive && !r.force then
            (scheduleCommit s ⟨s.commitTimeoutMs, r.force, r.reason⟩, [])
          else if s.responseInProgress || s.isCommitting then
            ({ s with pendingCommitRequest :=
                 if s.pendingCommitRequest.isNone then some ⟨r.force, r.reason⟩
                 else s.pendingCommitRequest }, [])
          else commitAudio s r.force r.reason
  | .speechStarted =>
      ({ s with speechActive := true, commitTimer := none,
                pauseForEmptyCommit := false, pendingCommitRequest := none,
                hasNewAudioSinceLastCommit := !s.audioBuffer.isEmpty }, [])
  | .speechStopped =>
      let s := { s with speechActive := false }
      if s.hasNewAudioSinceLastCommit then
        (scheduleCommit s ⟨s.commitGracePeriodMs, true, "speech_stopped"⟩, [])
      else (s, [])
  | .committed => (s, [])
  | .commitFailed =>
      ({ s with responseInProgress := false, pauseForEmptyCommit := true,
                hasNewAudioSinceLastCommit := false, pendingCommitRequest := none,
                audioBuffer := [], pendingAudioBytes := 0 }, [])
  | .commitNoAudio =>
      ({ s with responseInProgress := false, pauseForEmptyCommit := true,
                metrics := { s.metrics with
                  emptyCommitWarnings := s.metrics.emptyCommitWarnings + 1 },
                hasNewAudioSinceLastCommit := false, pendingCommitRequest := none,
                audioBuffer := [], pendingAudioBytes := 0 }, [])
  | .commitEmpty =>
      ({ s with pauseForEmptyCommit := true,
                metrics := { s.metrics with
                  emptyCommitWarnings := s.metrics.emptyCommitWarnings + 1 },
                hasNewAudioSinceLastCommit := false, pendingCommitRequest := none,
                audioBuffer := [], pendingAudioBytes := 0 }, [])
  | .responseCreated =>
      ({ s with textBuffer := "", lastPublishedLength := 0,
                lastLoggedLength := 0, responseDelivered := false }, [])
  | .textDelta d =>
      if d = "" then (s, [])
      else
        let s := { s with textBuffer := s.textBuffer ++ d }
        ((publishTextUpdate s false).1, [])
  | .transcriptDone t | .contentPartDone t =>
      let s := { s with textBuffer := t }
      ((publishTextUpdate s false).1, [])
  | .responseDone =>
      let s3 := doneBookkeep s
      match s3.pendingCommitRequest with
      | some r =>
          if s3.hasNewAudioSinceLastCommit && !s3.audioBuffer.isEmpty then
            commitAudio { s3 with pendingCommitRequest := none }
              r.force (r.reason ++ "_post_response")
          else ({ s3 with pendingCommitRequest := none }, [])
      | none => (s3, [])
  | .responseError =>
      ({ s with responseInProgress := false, pendingCommitRequest := none }, [])
  | .errorMsg active =>
      if active then
        ({ s with responseInProgress := true,
                  pendingCommitRequest := some ⟨true, "server_active_response"⟩ }, [])
      else ({ s with responseInProgress := false }, [])
  | .socketClosed =>
      ({ s with socketOpen := false, isConnected := false, isInitialized := false,
                commitTimer := none, audioBuffer := [], speechActive := false,
                isCommitting := false, responseInProgress := false }, [])
  | .socketErrorEv =>
      ({ s with responseInProgress := false, isCommitting := false }, [])

/-! ### Helper lemmas -/

/-- Whether a transport event is a `response.create`. -/
def isCreate : TEvent → Bool
  | .responseCreate => true
  | _ => false

/-- The `response.create` events among a step's emissions. -/
def creates (evs : List TEvent) : List TEvent := evs.filter isCreate

lemma creates_nil : creates [] = [] := rfl

lemma creates_append (l l' : List TEvent) :
    creates (l ++ l') = creates l ++ creates l' := List.filter_append ..

lemma chunkAppendEvents_creates (m : Nat) (l acc : List Chunk) :
    creates (chunkAppendEvents m l acc) = [] := by
  induction l generalizing acc with
  | nil =>
      simp only [chunkAppendEvents]
      split <;> rfl
  | cons c rest ih =>
      simp only [chunkAppendEvents]
      split
      · simpa [creates, isCreate] using ih []
      · exact ih _

lemma sendBufferedAudioChunks_creates (s : SessionState) :
    creates (sendBufferedAudioChunks s).2 = [] := by
  unfold sendBufferedAudioChunks
  split
  · rfl
  · split
    · rfl
    · exact chunkAppendEvents_creates ..

lemma scheduleCommit_rip (s : SessionState) (r : TimerReq) :
    (scheduleCommit s r).responseInProgress = s.responseInProgress := by
  unfold scheduleCommit; split <;> rfl

lemma scheduleCommit_pause (s : SessionState) (r : TimerReq) :
    (scheduleCommit s r).pauseForEmptyCommit = s.pauseForEmptyCommit := by
  unfold scheduleCommit; split <;> rfl

lemma publishTextUpdate_rip (s : SessionState) (force : Bool) :
    (publishTextUpdate s force).1.responseInProgress = s.responseInProgress := by
  simp only [publishTextUpdate]
  repeat' split <;> try rfl

lemma publishTextUpdate_pause (s : SessionState) (force : Bool) :
    (publishTextUpdate s force).1.pauseForEmptyCommit = s.pauseForEmptyCommit := by
  simp only [publishTextUpdate]
  repeat' split <;> try rfl

lemma commitBody_rip (s : SessionState) :
    (commitBody s).1.responseInProgress = s.responseInProgress ∨
      (s.responseInProgress = false ∧ (commitBody s).1.responseInProgress = true) := by
  simp only [commitBody]
  split
  · exact Or.inl rfl
  split
  · exact Or.inl rfl
  split
  · exact Or.inl rfl
  split
  · exact Or.inl rfl
  split
  · exact Or.inl rfl
  rename_i hs hb hc hrip hrc
  exact Or.inr ⟨by simpa using hrip, rfl⟩

lemma commitBody_pause (s : SessionState) :
    (commitBody s).1.pauseForEmptyCommit = s.pauseForEmptyCommit := by
  simp only [commitBody]
  repeat' split
  all_goals rfl

lemma commitAudio_pause (s : SessionState) (f : Bool) (r : String) :
    (commitAudio s f r).1.pauseForEmptyCommit = s.pauseForEmptyCommit := by
  simp only [commitAudio]
  repeat' split <;> try rfl
  · exact scheduleCommit_pause ..
  · exact commitBody_pause ..

/-- The `response.done` bookkeeping only clears the in-progress flag and the
text assembly state (the force-publish touches only fields that are reset
immediately afterwards). -/
lemma doneBookkeep_eq (s : SessionState) :
    doneBookkeep s =
      { s with responseInProgress := false, textBuffer := "",
               lastPublishedLength := 0, lastLoggedLength := 0,
               responseDelivered := false } := by
  simp only [doneBookkeep, publishTextUpdate]
  repeat' split
  all_goals rfl

lemma sendEv_creates_commit (s : SessionState) :
    creates (sendEv s TEvent.commit).2 = [] := by
  unfold sendEv; split <;> rfl

lemma sendEv_creates_item (s : SessionState) :
    creates (sendEv s TEvent.itemCreate).2 = [] := by
  unfold sendEv; split <;> rfl

lemma sendEv_creates_create (s : SessionState) (h : sendOK s = true) :
    creates (sendEv s TEvent.responseCreate).2 = [TEvent.responseCreate] := by
  unfold sendEv
  rw [if_pos h]
  rfl

lemma commitBody_creates (s : SessionState) :
    (creates (commitBody s).2 = [] ∧
       (commitBody s).1.responseInProgress = s.responseInProgress) ∨
    (creates (commitBody s).2 = [TEvent.responseCreate] ∧
       s.responseInProgress = false ∧ (commitBody s).1.responseInProgress = true) := by
  simp only [commitBody]
  split
  · exact Or.inl ⟨rfl, rfl⟩
  rename_i hsock
  have hso : sendOK s = true := by simpa using hsock
  split
  · exact Or.inl ⟨sendBufferedAudioChunks_creates s, rfl⟩
  split
  · exact Or.inl ⟨by simp [creates_append, sendBufferedAudioChunks_creates,
      sendEv_creates_commit], rfl⟩
  split
  · exact Or.inl ⟨by simp [creates_append, sendBufferedAudioChunks_creates,
      sendEv_creates_commit, sendEv_creates_item], rfl⟩
  rename_i hrip
  split
  · exact Or.inl ⟨by simp [creates_append, sendBufferedAudioChunks_creates,
      sendEv_creates_commit, sendEv_creates_item], rfl⟩
  · refine Or.inr ⟨?_, by simpa using hrip, rfl⟩
    simp [creates_append, sendBufferedAudioChunks_creates,
      sendEv_creates_commit, sendEv_creates_item, sendEv_creates_create s hso]

/-- Master lemma for `commitAudioBufferAndCreateResponse`: either it emits no
`response.create` and leaves `responseInProgress` unchanged, or it emits
exactly one, in which case no response was in progress on entry and one is
afterwards. -/
lemma commitAudio_creates (s : SessionState) (f : Bool) (r : String) :
    (creates (commitAudio s f r).2 = [] ∧
       (commitAudio s f r).1.responseInProgress = s.responseInProgress) ∨
    (creates (commitAudio s f r).2 = [TEvent.responseCreate] ∧
       s.responseInProgress = false ∧ (commitAudio s f r).1.responseInProgress = true) := by
  simp only [commitAudio]
  split
  · exact Or.inl ⟨rfl, rfl⟩
  split
  · exact Or.inl ⟨rfl, rfl⟩
  split
  · exact Or.inl ⟨rfl, rfl⟩
  split
  · exact Or.inl ⟨rfl, rfl⟩
  split
  · exact Or.inl ⟨rfl, rfl⟩
  split
  · exact Or.inl ⟨rfl, scheduleCommit_rip ..⟩
  · exact (commitBody_creates _).imp (fun h => ⟨h.1, h.2⟩)
      (fun h => ⟨h.1, h.2.1, h.2.2⟩)

lemma sendAudio_creates (s : SessionState) (c : Chunk) :
    (creates (sendAudio s c).2 = [] ∧
       (sendAudio s c).1.responseInProgress = s.responseInProgress) ∨
    (creates (sendAudio s c).2 = [TEvent.responseCreate] ∧
       s.responseInProgress = false ∧ (sendAudio s c).1.responseInProgress = true) := by
  simp only [sendAudio]
  split
  · exact Or.inl ⟨rfl, rfl⟩
  split
  · exact Or.inl ⟨rfl, rfl⟩
  split
  · exact commitAudio_creates ..
  · exact Or.inl ⟨rfl, scheduleCommit_rip ..⟩

lemma timerFire_creates (s : SessionState) :
    (creates (step s .timerFire).2 = [] ∧
       (step s .timerFire).1.responseInProgress = s.responseInProgress) ∨
    (creates (step s .timerFire).2 = [TEvent.responseCreate] ∧
       s.responseInProgress = false ∧ (step s .timerFire).1.responseInProgress = true) := by
  simp only [step]
  cases s.commitTimer with
  | none => exact Or.inl ⟨rfl, rfl⟩
  | some r =>
      simp only
      split
      · exact Or.inl ⟨rfl, rfl⟩
      split
      · exact Or.inl ⟨rfl, rfl⟩
      split
      · exact Or.inl ⟨rfl, scheduleCommit_rip ..⟩
      split
      · exact Or.inl ⟨rfl, rfl⟩
      · exact commitAudio_creates ..

lemma responseDone_creates (s : SessionState) :
    (creates (step s .responseDone).2 = [] ∧
       (step s .responseDone).1.responseInProgress = false) ∨
    (creates (step s .responseDone).2 = [TEvent.responseCreate] ∧
       (step s .responseDone).1.responseInProgress = true) := by
  simp only [step, doneBookkeep_eq]
  cases s.pendingCommitRequest with
  | none => exact Or.inl ⟨rfl, rfl⟩
  | some r =>
      simp only
      split
      · exact (commitAudio_creates _ r.force (r.reason ++ "_post_response")).imp
          (fun h => ⟨h.1, h.2⟩) (fun h => ⟨h.1, h.2.2⟩)
      · exact Or.inl ⟨rfl, rfl⟩

/-- Events whose handlers do not force-clear the response flag from outside
the response lifecycle: everything except the commit-rejection handlers, the
generic error handler and the transport-failure callbacks. -/
def benign : Ev → Bool
  | .commitFailed => false
  | .commitNoAudio => false
  | .errorMsg _ => false
  | .socketClosed => false
  | .socketErrorEv => false
  | _ => true

/-- Closing events: `response.done` and `response.error` terminate the
outstanding response. -/
def closesOf : Ev → Nat
  | .responseDone => 1
  | .responseError => 1
  | _ => 0

/-- One step of the instrumented machine: alongside the session state it
tracks the number of outstanding `response.create` events (emitted creates
not yet answered by `response.done` / `response.error`). -/
def stepOut (p : SessionState × Nat) (e : Ev) : SessionState × Nat :=
  ((step p.1 e).1, p.2 - closesOf e + (creates (step p.1 e).2).length)

/-- Outstanding `response.create` count after running a trace from `s0`. -/
def outAfter (s0 : SessionState) (tr : List Ev) : Nat :=
  (tr.foldl stepOut (s0, 0)).2

/-- The single-flight invariant: at most one outstanding create, and an
outstanding create implies the in-progress flag. -/
def SingleFlightInv (p : SessionState × Nat) : Prop :=
  p.2 ≤ 1 ∧ (p.2 = 1 → p.1.responseInProgress = true)

lemma stepOut_inv (p : SessionState × Nat) (e : Ev) (hb : benign e = true)
    (h : SingleFlightInv p) : SingleFlightInv (stepOut p e) := by
  obtain ⟨s, o⟩ := p
  obtain ⟨ho, hro⟩ := h
  simp only at ho hro
  have key :
      (closesOf e = 0 ∧
        ((creates (step s e).2 = [] ∧
           (step s e).1.responseInProgress = s.responseInProgress) ∨
         (creates (step s e).2 = [TEvent.responseCreate] ∧
           s.responseInProgress = false ∧ (step s e).1.responseInProgress = true))) ∨
      (closesOf e = 1 ∧
        (creates (step s e).2 = [] ∨
         (creates (step s e).2 = [TEvent.responseCreate] ∧
           (step s e).1.responseInProgress = true))) := by
    cases e with
    | audio c => exact Or.inl ⟨rfl, sendAudio_creates s c⟩
    | timerFire => exact Or.inl ⟨rfl, timerFire_creates s⟩
    | responseDone => exact Or.inr ⟨rfl, (responseDone_creates s).imp And.left id⟩
    | responseError => exact Or.inr ⟨rfl, Or.inl rfl⟩
    | speechStarted => exact Or.inl ⟨rfl, Or.inl ⟨rfl, rfl⟩⟩
    | speechStopped =>
        refine Or.inl ⟨rfl, Or.inl ?_⟩
        simp only [step]
        split
        · exact ⟨rfl, scheduleCommit_rip ..⟩
        · exact ⟨rfl, rfl⟩
    | committed => exact Or.inl ⟨rfl, Or.inl ⟨rfl, rfl⟩⟩
    | commitEmpty => exact Or.inl ⟨rfl, Or.inl ⟨rfl, rfl⟩⟩
    | responseCreated => exact Or.inl ⟨rfl, Or.inl ⟨rfl, rfl⟩⟩
    | textDelta d =>
        refine Or.inl ⟨rfl, Or.inl ?_⟩
        simp only [step]
        split
        · exact ⟨rfl, rfl⟩
        · exact ⟨rfl, publishTextUpdate_rip ..⟩
    | transcriptDone t =>
        exact Or.inl ⟨rfl, Or.inl ⟨rfl, publishTextUpdate_rip ..⟩⟩
    | contentPartDone t =>
        exact Or.inl ⟨rfl, Or.inl ⟨rfl, publishTextUpdate_rip ..⟩⟩
    | commitFailed => simp [benign] at hb
    | commitNoAudio => simp [benign] at hb
    | errorMsg a => simp [benign] at hb
    | socketClosed => simp [benign] at hb
    | socketErrorEv => simp [benign] at hb
  rcases key with ⟨hc, ⟨h1, h2⟩ | ⟨h1, h2, h3⟩⟩ | ⟨hc, h1 | ⟨h1, h2⟩⟩
  · refine ⟨?_, fun hx => ?_⟩
    · simpa [stepOut, hc, h1] using ho
    · have hx' : o = 1 := by
        simp [stepOut, hc, h1] at hx
        omega
      have : (stepOut (s, o) e).1.responseInProgress = s.responseInProgress := h2
      rw [this]
      exact hro hx'
  · have ho0 : o = 0 := by
      by_contra hne
      have h1' : o = 1 := by omega
      rw [hro h1'] at h2
      simp at h2
    refine ⟨?_, fun hx => ?_⟩
    · simp [stepOut, hc, h1, ho0]
    · exact h3
  · refine ⟨?_, fun hx => ?_⟩
    · simp only [stepOut, hc, h1, List.length_nil]
      omega
    · exfalso
      simp only [stepOut, hc, h1, List.length_nil] at hx
      omega
  · refine ⟨?_, fun hx => ?_⟩
    · simp only [stepOut, hc, h1, List.length_singleton]
      omega
    · exact h2

lemma foldl_inv (tr : List Ev) (p : SessionState × Nat)
    (hb : tr.all benign = true) (h : SingleFlightInv p) :
    SingleFlightInv (tr.foldl stepOut p) := by
  induction tr generalizing p with
  | nil => exact h
  | cons e rest ih =>
      simp only [List.all_cons, Bool.and_eq_true] at hb
      exact ih _ hb.2 (stepOut_inv p e hb.1 h)

/-! ### Spec-modelled components

The spec (sections 4.1 and 4.3) describes a silence-gate warmup window, an
auto-adjusting RMS threshold and commit padding.  None of these is
implemented under `src`: the only traces in the repository are the
configuration defaults (`silenceGate.warmupDrops`, `silenceGate.floor`,
`silenceGate.autoAdjust`, `commits.padSilence`) declared by the settings
module quoted in `memory-bank/GROUNDING_CHANGES.md`.  The definitions below
model the missing behaviour from the spec's words. -/

/-- Modelled from the spec: the outcome of one commit attempt of the
CommitCoordinator (spec section 4.3) — either a commit preceded by
`appendedZeroBytes` of zero-filled silence with `totalBytesSent` bytes sent
in total before the commit event, or a deferred attempt with the idle timer
re-armed. -/
inductive PadOutcome where
  | committed (appendedZeroBytes totalBytesSent : Nat)
  | deferredRearmed
deriving Repr, DecidableEq

/-- Total bytes sent before the commit event of an outcome. -/
def totalSent : PadOutcome → Nat
  | .committed _ t => t
  | .deferredRearmed => 0

/-- Modelled from the spec (section 4.3, commit attempt; the implementation
of `commits.padSilence` is missing from `src`): if the bytes since the last
commit are below the minimum and padding is enabled, append a zero-filled
silence payload of exactly the shortfall (plus, for turn-ending contexts,
the fixed tail-silence padding) before committing; with padding disabled,
defer and re-arm the idle timer. -/
def commitAttemptModel (padEnabled turnEnding : Bool)
    (minCommitBytes tailPaddingBytes bytesSince : Nat) : PadOutcome :=
  if bytesSince < minCommitBytes then
    if padEnabled then
      let shortfall := minCommitBytes - bytesSince
      let zeros := shortfall + (if turnEnding then tailPaddingBytes else 0)
      .committed zeros (bytesSince + zeros)
    else .deferredRearmed
  else .committed 0 bytesSince

/-- Modelled from the spec: the SilenceGateState of AudioFrameIngest (spec
section 3); only its configuration defaults appear in the repository. -/
structure GateState where
  enabled : Bool
  rmsThreshold : ℚ
  rmsFloor : ℚ
  autoAdjust : Bool
  warmupRemaining : Nat
  consecutiveSilentDrops : Nat
deriving Repr, DecidableEq

/-- The auto-adjust trigger count used by the spec's example (section 4.1). -/
def autoAdjustDropLimit : Nat := 12

/-- Modelled from the spec: `observe(frame)` of AudioFrameIngest (section
4.1).  A frame is silent if the gate is enabled and its RMS is below the
threshold (square-free comparison as for `isAudioSilent`).  Silence is
bypassed during the warmup window; otherwise the frame is dropped, and once
the consecutive-drop counter reaches the limit with the threshold above the
floor, the threshold is multiplied by 0.75, floored at `rmsFloor`, and the
just-evaluated frame is re-tested against the new threshold (which is
nonnegative, so the square comparison remains valid). -/
def observeGate (g : GateState) (f : List Int) : GateState × Bool :=
  if !(g.enabled && decide (0 ≤ g.rmsThreshold ∧ rmsSq f < g.rmsThreshold ^ 2)) then
    ({ g with consecutiveSilentDrops := 0, warmupRemaining := 0 }, true)
  else if 0 < g.warmupRemaining then
    ({ g with warmupRemaining := g.warmupRemaining - 1 }, true)
  else
    let drops := g.consecutiveSilentDrops + 1
    if g.autoAdjust && decide (drops = autoAdjustDropLimit)
        && decide (g.rmsFloor < g.rmsThreshold) then
      let t' := max (g.rmsThreshold * (3 / 4 : ℚ)) g.rmsFloor
      if decide (rmsSq f < t' ^ 2) then
        ({ g with rmsThreshold := t', consecutiveSilentDrops := 0 }, false)
      else
        ({ g with rmsThreshold := t', consecutiveSilentDrops := 0 }, true)
    else
      ({ g with consecutiveSilentDrops := drops }, false)

/-- Modelled from the spec: the BufferAccumulator driven by the gate (spec
section 4.2, size-triggered flush path): accepted frames accumulate; when
the accumulated bytes reach the minimum chunk size, one append of that size
is emitted and the accumulator clears. -/
structure IngestState where
  gate : GateState
  accBytes : Nat
  acceptedFlags : List Bool
  appends : List Nat
deriving Repr, DecidableEq

/-- Modelled from the spec: process one frame through gate and accumulator. -/
def ingestStep (minChunkBytes : Nat) (st : IngestState) (f : List Int) :
    IngestState :=
  let r := observeGate st.gate f
  if r.2 then
    let b := st.accBytes + 2 * f.length
    if minChunkBytes ≤ b then
      { gate := r.1, accBytes := 0, acceptedFlags := st.acceptedFlags ++ [true],
        appends := st.appends ++ [b] }
    else
      { gate := r.1, accBytes := b, acceptedFlags := st.acceptedFlags ++ [true],
        appends := st.appends }
  else
    { st with gate := r.1, acceptedFlags := st.acceptedFlags ++ [false] }

/-- Modelled from the spec: run a frame sequence through the ingest
pipeline from a fresh accumulator. -/
def runIngest (minChunkBytes : Nat) (g : GateState) (frames : List (List Int)) :
    IngestState :=
  frames.foldl (ingestStep minChunkBytes) ⟨g, 0, [], []⟩

/-- The spec's scenario-1 gate: enabled, threshold 0.008, floor 0.001,
auto-adjust on, warmup 3. -/
def warmupGate : GateState := ⟨true, qThresholdDefault, qFloorDefault, true, 3, 0⟩

/-- Five 320-byte frames (160 samples) of near-silent audio
(RMS = 7/32768, about 0.0002). -/
def warmupFrames : List (List Int) := List.replicate 5 (List.replicate 160 7)

lemma sumSquares_replicate (n : Nat) (v : Int) :
    sumSquares (List.replicate n v) = n * (v * v) := by
  have key : ∀ (m : Nat) (a : Int),
      List.foldl (fun x y => x + y * y) a (List.replicate m v) = a + m * (v * v) := by
    intro m
    induction m with
    | zero => intro a; simp
    | succ k ih =>
        intro a
        rw [List.replicate_succ, List.foldl_cons, ih]
        push_cast
        ring
  simpa [sumSquares] using key n 0

lemma rmsSq_fr : rmsSq (List.replicate 160 7) = 49 / 1073741824 := by
  rw [rmsSq, sumSquares_replicate]
  norm_num

/-- The scenario frame is silent under the default threshold:
RMS must satisfy (49/2^30) < (1/125)^2. -/
lemma fr_silent : 0 ≤ qThresholdDefault ∧
    rmsSq (List.replicate 160 7) < qThresholdDefault ^ 2 := by
  rw [qThresholdDefault_eq, rmsSq_fr]
  norm_num

lemma rmsSq_fr200 :
    rmsSq (List.replicate 160 200) = 625 / 16777216 := by
  rw [rmsSq, sumSquares_replicate]
  norm_num

/-- A frame of RMS 200/32768, about 0.0061: silent under the default
threshold 0.008. -/
lemma fr200_silent_old :
    rmsSq (List.replicate 160 200) < qThresholdDefault ^ 2 := by
  rw [qThresholdDefault_eq, rmsSq_fr200]
  norm_num

/-- The once-adjusted default threshold: max(0.008 * 0.75, 0.001) = 0.006. -/
lemma adjustedDefault_eq :
    max (qThresholdDefault * (3 / 4)) qFloorDefault = 3 / 500 := by
  rw [qThresholdDefault_eq, qFloorDefault_eq, max_eq_left (by norm_num)]
  norm_num

/-- One observation never raises the threshold, never drops it below the
floor, and leaves the floor unchanged. -/
lemma observeGate_mono (g : GateState) (f : List Int)
    (h0 : 0 ≤ g.rmsFloor) (h1 : g.rmsFloor ≤ g.rmsThreshold) :
    (observeGate g f).1.rmsFloor = g.rmsFloor ∧
    (observeGate g f).1.rmsThreshold ≤ g.rmsThreshold ∧
    g.rmsFloor ≤ (observeGate g f).1.rmsThreshold := by
  have hθ : (0 : ℚ) ≤ g.rmsThreshold := le_trans h0 h1
  have h34 : g.rmsThreshold * (3 / 4 : ℚ) ≤ g.rmsThreshold := by nlinarith
  simp only [observeGate]
  repeat' split
  all_goals
    refine ⟨rfl, ?_, ?_⟩ <;>
      first
        | exact le_refl _
        | exact h1
        | exact max_le h34 h1
        | exact le_max_right _ _

/-! ### Claim theorems -/

/-- A connected, initialised session (the state right after `init`
resolves). -/
def liveState : SessionState :=
  { initState with isConnected := true, isInitialized := true,
                   socketPresent := true, socketOpen := true }

/-- C3: in a commit attempt with fewer buffered bytes than `minCommitBytes`
and padding enabled, exactly the shortfall (plus the tail padding for
turn-ending contexts) of zero-filled silence is appended before the commit,
so at least `minCommitBytes` bytes are sent before the commit event (with
3200/1000 as the spec instance); with padding disabled the commit is
deferred and the idle timer re-armed. -/
theorem c3_padding :
    (∀ (te : Bool) (m tp b : Nat), b < m →
       commitAttemptModel true te m tp b =
         .committed (m - b + (if te then tp else 0))
           (b + (m - b + (if te then tp else 0))) ∧
       m ≤ totalSent (commitAttemptModel true te m tp b)) ∧
    (∀ (te : Bool) (m tp b : Nat), b < m →
       commitAttemptModel false te m tp b = .deferredRearmed) ∧
    3200 ≤ totalSent (commitAttemptModel true false 3200 0 1000) := by
  refine ⟨fun te m tp b hb => ⟨?_, ?_⟩, fun te m tp b hb => ?_, by decide⟩
  · simp [commitAttemptModel, hb]
  · cases te <;> simp [commitAttemptModel, hb, totalSent] <;> omega
  · simp [commitAttemptModel, hb]

/-- Witness for C3 at the spec's instance: 3200 minimum, 1000 buffered,
not turn-ending, padding enabled and disabled. -/
theorem c3_padding_witness :
    (commitAttemptModel true false 3200 0 1000 =
       .committed 2200 3200 ∧
     3200 ≤ totalSent (commitAttemptModel true false 3200 0 1000)) ∧
    commitAttemptModel false false 3200 0 1000 = .deferredRearmed :=
  ⟨c3_padding.1 false 3200 0 1000 (by decide),
   c3_padding.2.1 false 3200 0 1000 (by decide)⟩

set_option maxRecDepth 8000 in
/-- C7: during the warmup window a silent frame bypasses the gate and is
accepted (consuming one warmup slot); on the spec's scenario — five
near-silent 320-byte frames, threshold 0.008, warmup 3 — the first three
frames are accepted, the last two dropped, and the accumulator holds 960
bytes with no append emitted (below the 4800-byte chunk minimum). -/
theorem c7_warmup_bypass :
    (∀ (g : GateState) (f : List Int), g.enabled = true →
       0 ≤ g.rmsThreshold → rmsSq f < g.rmsThreshold ^ 2 →
       0 < g.warmupRemaining →
       (observeGate g f).2 = true ∧
       (observeGate g f).1.warmupRemaining = g.warmupRemaining - 1) ∧
    (runIngest 4800 warmupGate warmupFrames).acceptedFlags =
        [true, true, true, false, false] ∧
    (runIngest 4800 warmupGate warmupFrames).accBytes = 960 ∧
    (runIngest 4800 warmupGate warmupFrames).appends = [] := by
  have hrun : (runIngest 4800 warmupGate warmupFrames).acceptedFlags =
        [true, true, true, false, false] ∧
      (runIngest 4800 warmupGate warmupFrames).accBytes = 960 ∧
      (runIngest 4800 warmupGate warmupFrames).appends = [] := by
    have h1 := fr_silent.1
    have h2 := fr_silent.2
    rw [show warmupFrames = [List.replicate 160 7, List.replicate 160 7,
      List.replicate 160 7, List.replicate 160 7, List.replicate 160 7] from rfl]
    generalize hfr : List.replicate 160 (7 : Int) = fr at h2 ⊢
    have hlen : fr.length = 160 := by rw [← hfr]; simp
    have hns : ¬ qThresholdDefault ^ 2 ≤ rmsSq fr := not_le.mpr h2
    refine ⟨?_, ?_, ?_⟩ <;>
      simp [runIngest, ingestStep, observeGate, warmupGate, h1, h2, hns, hlen,
        autoAdjustDropLimit]
  refine ⟨fun g f hg ht hs hw => ?_, hrun.1, hrun.2.1, hrun.2.2⟩
  simp only [observeGate]
  rw [if_neg (by simp [hg, ht, hs]), if_pos hw]
  exact ⟨rfl, rfl⟩

/-- Witness for C7's general warmup-bypass part at a concrete gate and
frame. -/
theorem c7_warmup_bypass_witness :
    (observeGate warmupGate (List.replicate 160 7)).2 = true ∧
    (observeGate warmupGate (List.replicate 160 7)).1.warmupRemaining = 3 - 1 :=
  c7_warmup_bypass.1 warmupGate (List.replicate 160 7)
    rfl fr_silent.1 fr_silent.2 (by decide)

/-- C8: when the consecutive-silent-drop counter reaches the limit (12)
while the threshold is above the floor, the threshold becomes
`max (threshold * 0.75) floor` and the just-evaluated frame is re-tested
against the new threshold — the frame is accepted exactly when its RMS is
no longer below the adjusted threshold; and over any run of the gate the
threshold never increases and never drops below the floor. -/
theorem c8_auto_adjust :
    (∀ (g : GateState) (f : List Int), g.enabled = true →
       0 ≤ g.rmsThreshold → rmsSq f < g.rmsThreshold ^ 2 →
       g.warmupRemaining = 0 → g.autoAdjust = true →
       g.consecutiveSilentDrops + 1 = autoAdjustDropLimit →
       g.rmsFloor < g.rmsThreshold →
       (observeGate g f).1.rmsThreshold =
         max (g.rmsThreshold * (3 / 4)) g.rmsFloor ∧
       ((observeGate g f).2 = true ↔
         ¬ rmsSq f < (max (g.rmsThreshold * (3 / 4)) g.rmsFloor) ^ 2)) ∧
    (∀ (g : GateState) (frames : List (List Int)),
       0 ≤ g.rmsFloor → g.rmsFloor ≤ g.rmsThreshold →
       (frames.foldl (fun gg f => (observeGate gg f).1) g).rmsThreshold ≤
           g.rmsThreshold ∧
       g.rmsFloor ≤
           (frames.foldl (fun gg f => (observeGate gg f).1) g).rmsThreshold) := by
  constructor
  · intro g f hg ht hs hw ha hd hf
    simp only [observeGate]
    rw [if_neg (by simp [hg, ht, hs]), if_neg (by simp [hw]),
      if_pos (by simp [ha, hd, hf])]
    split
    · rename_i hre
      exact ⟨rfl, by simp [of_decide_eq_true hre]⟩
    · rename_i hre
      rw [decide_eq_true_eq] at hre
      exact ⟨rfl, by simp [hre]⟩
  · intro g frames
    induction frames generalizing g with
    | nil => exact fun _ h1 => ⟨le_refl _, h1⟩
    | cons f rest ih =>
        intro h0 h1
        obtain ⟨he, h2, h3⟩ := observeGate_mono g f h0 h1
        have := ih (observeGate g f).1 (he ▸ h0) (he ▸ h3)
        exact ⟨le_trans (by simpa using this.1) h2,
          le_trans (le_of_eq he.symm) (by simpa [he] using this.2)⟩

/-- The warmup gate with the warmup window exhausted and eleven consecutive
silent drops already recorded. -/
def elevenDropGate : GateState :=
  ⟨true, qThresholdDefault, qFloorDefault, true, 0, 11⟩

/-- Witness for C8: the adjusting step at drop count 11 — a frame still
below the adjusted threshold 0.006 is re-tested and dropped, a frame
between 0.006 and 0.008 is re-tested and accepted — and monotonicity over
the warmup scenario's frames. -/
theorem c8_auto_adjust_witness :
    ((observeGate elevenDropGate (List.replicate 160 7)).1.rmsThreshold =
        max (qThresholdDefault * (3 / 4)) qFloorDefault ∧
      (observeGate elevenDropGate (List.replicate 160 7)).2 = false) ∧
    (observeGate elevenDropGate (List.replicate 160 200)).2 = true ∧
    ((warmupFrames.foldl (fun gg f => (observeGate gg f).1)
        warmupGate).rmsThreshold ≤ qThresholdDefault ∧
      qFloorDefault ≤
        (warmupFrames.foldl (fun gg f => (observeGate gg f).1)
          warmupGate).rmsThreshold) := by
  have h7 := c8_auto_adjust.1 elevenDropGate (List.replicate 160 7)
    rfl fr_silent.1 fr_silent.2 rfl rfl (by decide) (by decide)
  have h200 := c8_auto_adjust.1 elevenDropGate (List.replicate 160 200)
    rfl fr_silent.1 fr200_silent_old rfl rfl (by decide) (by decide)
  refine ⟨⟨h7.1, ?_⟩, ?_,
    c8_auto_adjust.2 warmupGate warmupFrames (by decide) (by decide)⟩
  · have hlt : rmsSq (List.replicate 160 7) <
        (max (qThresholdDefault * (3 / 4)) qFloorDefault) ^ 2 := by
      rw [rmsSq_fr, adjustedDefault_eq]
      norm_num
    cases hbool : (observeGate elevenDropGate (List.replicate 160 7)).2
    · rfl
    · exact absurd hlt (h7.2.mp hbool)
  · refine h200.2.mpr ?_
    show ¬ rmsSq (List.replicate 160 200) <
      (max (qThresholdDefault * (3 / 4)) qFloorDefault) ^ 2
    rw [rmsSq_fr200, adjustedDefault_eq]
    norm_num

/-- C10: on an initialised session with an open socket, `sendText` emits the
conversation item and the `response.create` immediately, leaving the state
(including `responseInProgress`) untouched, even while a response is in
progress — the single-flight guard applies only to the audio-commit path. -/
theorem c10_sendText_unconditional (s : SessionState) (t : String)
    (h1 : s.isInitialized = true) (h2 : s.socketPresent = true)
    (h3 : s.socketOpen = true) (_h4 : s.responseInProgress = true) :
    sendText s t = (s, [TEvent.itemCreate, TEvent.responseCreate]) := by
  simp [sendText, sendEv, sendOK, h1, h2, h3]

/-- A live session with a response in progress. -/
def busyState : SessionState := { liveState with responseInProgress := true }

/-- Witness for C10 on a live session with an active response. -/
theorem c10_sendText_unconditional_witness :
    sendText busyState ("hello") =
      (busyState, [TEvent.itemCreate, TEvent.responseCreate]) :=
  c10_sendText_unconditional busyState ("hello") rfl rfl rfl rfl

/-- A live session holding an earlier deferred commit request while a
response is active. -/
def c5state : SessionState :=
  { liveState with responseInProgress := true,
                   pendingCommitRequest := some ⟨false, "timer"⟩ }

/-- C5 counterexample: with a deferred request already recorded, a second
request during an active response does NOT overwrite the slot — the first
request survives, refuting last-write-wins. -/
theorem c5_counterexample :
    (commitAudio c5state true ("speech_stopped")).1.pendingCommitRequest =
        some ⟨false, "timer"⟩ ∧
    (commitAudio c5state true ("speech_stopped")).1.pendingCommitRequest ≠
        some ⟨true, "speech_stopped"⟩ := by
  constructor
  · rfl
  · decide

/-- C5 amended: while a response is in progress a commit request is
coalesced into the single `pendingCommitRequest` slot with FIRST-write-wins
semantics (the slot is written only when empty), on both the direct commit
path and the timer callback, and nothing is sent. -/
theorem c5_first_write_wins :
    (∀ (s : SessionState) (f : Bool) (r : String), s.responseInProgress = true →
       (commitAudio s f r).2 = [] ∧
       (s.pendingCommitRequest = none →
          (commitAudio s f r).1.pendingCommitRequest = some ⟨f, r⟩) ∧
       (∀ q : CommitReq, s.pendingCommitRequest = some q →
          (commitAudio s f r).1.pendingCommitRequest = some q)) ∧
    (∀ (s : SessionState) (tr : TimerReq), s.commitTimer = some tr →
       s.hasNewAudioSinceLastCommit = true →
       (s.pauseForEmptyCommit = false ∨ tr.force = true) →
       (s.speechActive = false ∨ tr.force = true) →
       (s.responseInProgress = true ∨ s.isCommitting = true) →
       (step s .timerFire).2 = [] ∧
       (s.pendingCommitRequest = none →
          (step s .timerFire).1.pendingCommitRequest = some ⟨tr.force, tr.reason⟩) ∧
       (∀ q : CommitReq, s.pendingCommitRequest = some q →
          (step s .timerFire).1.pendingCommitRequest = some q)) := by
  constructor
  · intro s f r hrip
    have hc : commitAudio s f r =
        ({ s with pendingCommitRequest :=
             if s.pendingCommitRequest.isNone then some ⟨f, r⟩
             else s.pendingCommitRequest }, []) := by
      simp [commitAudio, hrip]
    rw [hc]
    refine ⟨rfl, fun hn => ?_, fun q hq => ?_⟩
    · simp [hn]
    · simp [hq]
  · intro s tr htm hnew hpause hspeech hbusy
    have hstep : step s .timerFire =
        ({ s with commitTimer := none, pendingCommitRequest :=
             if s.pendingCommitRequest.isNone then some ⟨tr.force, tr.reason⟩
             else s.pendingCommitRequest }, []) := by
      simp only [step, htm]
      rw [if_neg (by simp [hnew]),
        if_neg (by rcases hpause with hp | hp <;> simp [hp]),
        if_neg (by rcases hspeech with hs | hs <;> simp [hs]),
        if_pos (by rcases hbusy with hb | hb <;> simp [hb])]
    rw [hstep]
    refine ⟨rfl, fun hn => ?_, fun q hq => ?_⟩
    · simp [hn]
    · simp [hq]

/-- Witness for C5's amended first-write-wins behaviour at concrete
states. -/
theorem c5_first_write_wins_witness :
    ((commitAudio c5state true ("speech_stopped")).2 = [] ∧
      (commitAudio c5state true ("speech_stopped")).1.pendingCommitRequest =
        some ⟨false, "timer"⟩) ∧
    (step { c5state with
              commitTimer := some ⟨500, false, "timer"⟩,
              hasNewAudioSinceLastCommit := true } .timerFire).1.pendingCommitRequest =
      some ⟨false, "timer"⟩ :=
  ⟨⟨(c5_first_write_wins.1 c5state true ("speech_stopped") rfl).1,
    (c5_first_write_wins.1 c5state true ("speech_stopped") rfl).2.2
      ⟨false, "timer"⟩ rfl⟩,
   (c5_first_write_wins.2 { c5state with
        commitTimer := some ⟨500, false, "timer"⟩,
        hasNewAudioSinceLastCommit := true } ⟨500, false, "timer"⟩
      rfl rfl (Or.inl rfl) (Or.inl rfl) (Or.inl rfl)).2.2 ⟨false, "timer"⟩ rfl⟩

/-- An initialised session whose socket is present but no longer open, with
one small buffered chunk and new audio pending. -/
def c4state : SessionState :=
  { initState with isInitialized := true, socketPresent := true,
                   socketOpen := false,
                   hasNewAudioSinceLastCommit := true,
                   audioBuffer := [[1, 2, 3]], pendingAudioBytes := 6 }

/-- C4 counterexample: with the transport unwritable, a forced commit
attempt emits nothing yet still clears the audio accumulator — the buffered
chunks are NOT retained for a later retry. -/
theorem c4_counterexample :
    c4state.audioBuffer ≠ [] ∧
    (commitAudio c4state true ("speech_stopped")).2 = [] ∧
    (commitAudio c4state true ("speech_stopped")).1.audioBuffer = [] ∧
    (commitAudio c4state true ("speech_stopped")).1.hasNewAudioSinceLastCommit
      = false := by
  refine ⟨by decide, rfl, rfl, rfl⟩

/-- C4 amended: when a commit attempt passes the in-memory guards but the
transport is not writable, the attempt emits no transport events and the
`finally` block clears the accumulator, the pending-byte count and the
new-audio flag — the buffered audio is dropped, not retried. -/
theorem c4_unwritable_clears_buffer (s : SessionState) (f : Bool) (r : String)
    (hsock : sendOK s = false)
    (h1 : s.responseInProgress = false) (h2 : s.isCommitting = false)
    (h3 : s.pauseForEmptyCommit = false ∨ f = true)
    (h4 : s.hasNewAudioSinceLastCommit = true)
    (h5 : getBufferedAudioBytes s.audioBuffer ≠ 0)
    (h6 : f = true ∨ s.minCommitBytes ≤ getBufferedAudioBytes s.audioBuffer) :
    (commitAudio s f r).2 = [] ∧
    (commitAudio s f r).1.audioBuffer = [] ∧
    (commitAudio s f r).1.hasNewAudioSinceLastCommit = false ∧
    (commitAudio s f r).1.pendingAudioBytes = 0 := by
  have hbody : ∀ s1 : SessionState, sendOK s1 = false →
      commitBody s1 = (s1, []) := by
    intro s1 hs
    simp [commitBody, hs]
  simp only [commitAudio]
  rw [if_neg (by simp [h1]), if_neg (by simp [h2]),
    if_neg (by rcases h3 with h | h <;> simp [h]),
    if_neg (by simp [h4]), if_neg h5,
    if_neg (by
      rcases h6 with h | h
      · simp [h]
      · simp [Nat.not_lt.mpr h]),
    hbody _ (by simpa [sendOK] using hsock)]
  exact ⟨rfl, rfl, rfl, rfl⟩

/-- Witness for C4's amended drop-on-unwritable behaviour. -/
theorem c4_unwritable_clears_buffer_witness :
    (commitAudio c4state true ("speech_stopped")).2 = [] ∧
    (commitAudio c4state true ("speech_stopped")).1.audioBuffer = [] ∧
    (commitAudio c4state true ("speech_stopped")).1.hasNewAudioSinceLastCommit
      = false ∧
    (commitAudio c4state true ("speech_stopped")).1.pendingAudioBytes = 0 :=
  c4_unwritable_clears_buffer c4state true ("speech_stopped")
    rfl rfl rfl (Or.inr rfl) rfl (by decide) (Or.inl rfl)

/-- A live session paused by a server empty-commit rejection. -/
def c6state : SessionState := { liveState with pauseForEmptyCommit := true }

/-- C6 counterexample: a server `speech_started` VAD event — not the
arrival of any audio chunk — clears `pauseForEmptyCommit`. -/
theorem c6_counterexample :
    c6state.pauseForEmptyCommit = true ∧
    (step c6state .speechStarted).1.pauseForEmptyCommit = false := by
  exact ⟨rfl, rfl⟩

/-- C6 amended: once set, `pauseForEmptyCommit` is cleared only by the
arrival of a new non-silent (accepted) audio chunk or by a server
`speech_started` event; no other event of the loop clears it. -/
theorem c6_pause_clearers (s : SessionState) (e : Ev)
    (hpre : s.pauseForEmptyCommit = true)
    (hpost : (step s e).1.pauseForEmptyCommit = false) :
    e = Ev.speechStarted ∨
      ∃ c : Chunk, e = Ev.audio c ∧ isAudioSilent s c = false := by
  cases e with
  | speechStarted => exact Or.inl rfl
  | audio c =>
      by_cases hsil : isAudioSilent s c = true
      · exfalso
        have hps : (step s (Ev.audio c)).1.pauseForEmptyCommit =
            s.pauseForEmptyCommit := by
          simp only [step, sendAudio]
          split
          · rfl
          · rfl
        rw [hps, hpre] at hpost
        exact Bool.noConfusion hpost
      · exact Or.inr ⟨c, rfl, by simpa using hsil⟩
  | timerFire =>
      exfalso
      simp only [step] at hpost
      rcases htm : s.commitTimer with _ | r <;> rw [htm] at hpost
      · exact Bool.noConfusion (hpre.symm.trans hpost)
      · simp only at hpost
        split at hpost
        · exact Bool.noConfusion (hpre.symm.trans hpost)
        · split at hpost
          · exact Bool.noConfusion (hpre.symm.trans hpost)
          · split at hpost
            · rw [scheduleCommit_pause] at hpost
              exact Bool.noConfusion (hpre.symm.trans hpost)
            · split at hpost
              · exact Bool.noConfusion (hpre.symm.trans hpost)
              · rw [commitAudio_pause] at hpost
                exact Bool.noConfusion (hpre.symm.trans hpost)
  | speechStopped =>
      exfalso
      simp only [step] at hpost
      split at hpost
      · rw [scheduleCommit_pause] at hpost
        exact Bool.noConfusion (hpre.symm.trans hpost)
      · exact Bool.noConfusion (hpre.symm.trans hpost)
  | committed => exact absurd (hpre.symm.trans hpost) (by simp)
  | commitFailed => exact absurd hpost (by simp [step])
  | commitNoAudio => exact absurd hpost (by simp [step])
  | commitEmpty => exact absurd hpost (by simp [step])
  | responseCreated => exact absurd (hpre.symm.trans hpost) (by simp)
  | textDelta d =>
      exfalso
      simp only [step] at hpost
      split at hpost
      · exact Bool.noConfusion (hpre.symm.trans hpost)
      · rw [publishTextUpdate_pause] at hpost
        exact Bool.noConfusion (hpre.symm.trans hpost)
  | transcriptDone t =>
      exfalso
      simp only [step] at hpost
      rw [publishTextUpdate_pause] at hpost
      exact Bool.noConfusion (hpre.symm.trans hpost)
  | contentPartDone t =>
      exfalso
      simp only [step] at hpost
      rw [publishTextUpdate_pause] at hpost
      exact Bool.noConfusion (hpre.symm.trans hpost)
  | responseDone =>
      exfalso
      simp only [step, doneBookkeep_eq] at hpost
      rcases hp : s.pendingCommitRequest with _ | q <;> simp only [hp] at hpost
      · exact Bool.noConfusion (hpre.symm.trans hpost)
      · split at hpost
        · rw [commitAudio_pause] at hpost
          exact Bool.noConfusion (hpre.symm.trans hpost)
        · exact Bool.noConfusion (hpre.symm.trans hpost)
  | responseError => exact absurd (hpre.symm.trans hpost) (by simp)
  | errorMsg a =>
      exfalso
      simp only [step] at hpost
      split at hpost
      · exact Bool.noConfusion (hpre.symm.trans hpost)
      · exact Bool.noConfusion (hpre.symm.trans hpost)
  | socketClosed => exact absurd (hpre.symm.trans hpost) (by simp)
  | socketErrorEv => exact absurd (hpre.symm.trans hpost) (by simp)

/-- Witness for C6's amended clearing rule on the `speech_started` case. -/
theorem c6_pause_clearers_witness :
    Ev.speechStarted = Ev.speechStarted ∨
      ∃ c : Chunk, Ev.speechStarted = Ev.audio c ∧
        isAudioSilent c6state c = false :=
  c6_pause_clearers c6state .speechStarted rfl rfl

lemma publish_empty (s : SessionState) (force : Bool)
    (h : s.textBuffer = "") : publishTextUpdate s force = (s, []) := by
  simp only [publishTextUpdate, if_pos h]

/-- A forced publish that finds the idempotence guard satisfied emits
nothing. -/
lemma publish_skip_snd (s : SessionState)
    (hg : s.responseDelivered = true ∧
      s.textBuffer.length = s.lastPublishedLength) :
    (publishTextUpdate s true).2 = [] := by
  simp only [publishTextUpdate]
  repeat' split
  all_goals
    first
      | rfl
      | (rename_i hgd
         exact absurd (by
           rw [Bool.and_eq_true]
           exact ⟨hg.1, decide_eq_true hg.2⟩) hgd)

/-- Case characterisation of one forced publish: the buffer is preserved,
and the call either hit the empty-buffer guard, hit the idempotence guard
(emitting nothing, preserving the publish bookmarks), or emitted the buffer
once and moved the bookmarks to its length. -/
lemma publish_true_char (s : SessionState) :
    (publishTextUpdate s true).1.textBuffer = s.textBuffer ∧
    ((s.textBuffer = "" ∧ (publishTextUpdate s true).1 = s ∧
        (publishTextUpdate s true).2 = []) ∨
     (s.responseDelivered = true ∧
        s.textBuffer.length = s.lastPublishedLength ∧
        (publishTextUpdate s true).2 = [] ∧
        (publishTextUpdate s true).1.responseDelivered = s.responseDelivered ∧
        (publishTextUpdate s true).1.lastPublishedLength =
          s.lastPublishedLength) ∨
     ((publishTextUpdate s true).2 = [s.textBuffer] ∧
        (publishTextUpdate s true).1.responseDelivered = true ∧
        (publishTextUpdate s true).1.lastPublishedLength =
          s.textBuffer.length)) := by
  simp only [publishTextUpdate]
  repeat' split
  all_goals
    first
      | (rename_i hdead hlog
         exact Bool.noConfusion hdead)
      | (rename_i h
         exact ⟨rfl, Or.inl ⟨h, rfl, rfl⟩⟩)
      | (rename_i h
         rw [Bool.and_eq_true] at h
         exact ⟨rfl, Or.inr (Or.inl
           ⟨h.1, of_decide_eq_true h.2, rfl, rfl, rfl⟩)⟩)
      | exact ⟨rfl, Or.inr (Or.inr ⟨rfl, rfl, rfl⟩)⟩

/-- C9: a forced publish is idempotent: the second of two consecutive
`publishTextUpdate true` calls never emits (unconditionally), and when the
buffer is non-empty and not already published at its current length the two
calls together emit the buffer exactly once. -/
theorem c9_publish_idempotent :
    (∀ s : SessionState,
       (publishTextUpdate (publishTextUpdate s true).1 true).2 = []) ∧
    (∀ s : SessionState, s.textBuffer ≠ "" →
       ¬(s.responseDelivered = true ∧
          s.textBuffer.length = s.lastPublishedLength) →
       (publishTextUpdate s true).2 ++
         (publishTextUpdate (publishTextUpdate s true).1 true).2 =
           [s.textBuffer]) := by
  constructor
  · intro s
    obtain ⟨hbuf, hcase⟩ := publish_true_char s
    rcases hcase with ⟨hb, hst, _⟩ | ⟨hd, hl, _, hdel, hpub⟩ | ⟨_, hdel, hpub⟩
    · rw [hst, publish_empty s true hb]
    · exact publish_skip_snd _ ⟨hdel.trans hd, by rw [hbuf, hpub]; exact hl⟩
    · exact publish_skip_snd _ ⟨hdel, by rw [hbuf, hpub]⟩
  · intro s hb hg
    obtain ⟨hbuf, hcase⟩ := publish_true_char s
    rcases hcase with ⟨hb', _, _⟩ | ⟨hd, hl, _, _, _⟩ | ⟨h2, hdel, hpub⟩
    · exact absurd hb' hb
    · exact absurd ⟨hd, hl⟩ hg
    · rw [h2, publish_skip_snd _ ⟨hdel, by rw [hbuf, hpub]⟩]
      rfl

/-- A live session with a freshly assembled, not yet published buffer. -/
def c9state : SessionState := { liveState with textBuffer := "hi" }

/-- Witness for C9 on a concrete unpublished buffer. -/
theorem c9_publish_idempotent_witness :
    (publishTextUpdate (publishTextUpdate c9state true).1 true).2 = [] ∧
    (publishTextUpdate c9state true).2 ++
      (publishTextUpdate (publishTextUpdate c9state true).1 true).2 =
        [c9state.textBuffer] :=
  ⟨c9_publish_idempotent.1 c9state,
   c9_publish_idempotent.2 c9state (by decide) (by decide)⟩

/-- C2: an `input_audio_buffer.commit` is emitted only under a true
pending-audio flag: directly, `commitAudioBufferAndCreateResponse` emits a
commit only when `hasNewAudioSinceLastCommit` held on entry; and across the
whole event loop, any step emitting a commit either started with the flag
set or is the acceptance of a non-silent audio chunk (which sets the flag
before the commit routine runs). -/
theorem c2_commit_guard :
    (∀ (s : SessionState) (f : Bool) (r : String),
       TEvent.commit ∈ (commitAudio s f r).2 →
       s.hasNewAudioSinceLastCommit = true) ∧
    (∀ (s : SessionState) (e : Ev), TEvent.commit ∈ (step s e).2 →
       s.hasNewAudioSinceLastCommit = true ∨
       ∃ c : Chunk, e = Ev.audio c ∧ isAudioSilent s c = false) := by
  constructor
  · intro s f r hmem
    simp only [commitAudio] at hmem
    split at hmem
    · simp at hmem
    · split at hmem
      · simp at hmem
      · split at hmem
        · simp at hmem
        · split at hmem
          · simp at hmem
          · rename_i hnew
            simpa using hnew
  · intro s e hmem
    cases e with
    | audio c =>
        by_cases hsil : isAudioSilent s c = true
        · exfalso
          have h2 : (step s (Ev.audio c)).2 = [] := by
            simp only [step, sendAudio]
            split
            · rfl
            · rfl
          rw [h2] at hmem
          simp at hmem
        · exact Or.inr ⟨c, rfl, by simpa using hsil⟩
    | timerFire =>
        left
        simp only [step] at hmem
        rcases htm : s.commitTimer with _ | r <;> rw [htm] at hmem
        · simp at hmem
        · simp only at hmem
          split at hmem
          · simp at hmem
          · rename_i hnew
            simpa using hnew
    | responseDone =>
        left
        simp only [step, doneBookkeep_eq] at hmem
        rcases hp : s.pendingCommitRequest with _ | q <;> simp only [hp] at hmem
        · simp at hmem
        · split at hmem
          · rename_i hcond
            rw [Bool.and_eq_true] at hcond
            exact hcond.1
          · simp at hmem
    | speechStarted => exact absurd hmem (by simp [step])
    | speechStopped =>
        exfalso
        simp only [step] at hmem
        split at hmem <;> simp at hmem
    | committed => exact absurd hmem (by simp [step])
    | commitFailed => exact absurd hmem (by simp [step])
    | commitNoAudio => exact absurd hmem (by simp [step])
    | commitEmpty => exact absurd hmem (by simp [step])
    | responseCreated => exact absurd hmem (by simp [step])
    | textDelta d =>
        exfalso
        simp only [step] at hmem
        split at hmem <;> simp at hmem
    | transcriptDone t => exact absurd hmem (by simp [step])
    | contentPartDone t => exact absurd hmem (by simp [step])
    | responseError => exact absurd hmem (by simp [step])
    | errorMsg a =>
        exfalso
        simp only [step] at hmem
        split at hmem <;> simp at hmem
    | socketClosed => exact absurd hmem (by simp [step])
    | socketErrorEv => exact absurd hmem (by simp [step])

/-- A live session with one buffered chunk of new audio. -/
def c2state : SessionState :=
  { liveState with hasNewAudioSinceLastCommit := true,
                   audioBuffer := [[1, 2, 3]], pendingAudioBytes := 6 }

/-- Witness for C2 at a forced commit that really emits a commit event. -/
theorem c2_commit_guard_witness :
    c2state.hasNewAudioSinceLastCommit = true ∧
    (c2state.hasNewAudioSinceLastCommit = true ∨
      ∃ c : Chunk, Ev.timerFire = Ev.audio c ∧ isAudioSilent c2state c = false) :=
  ⟨c2_commit_guard.1 c2state true ("go") (by decide),
   c2_commit_guard.2 { c2state with commitTimer := some ⟨500, true, "go"⟩ }
     .timerFire (by decide)⟩

/-- A live session with an active response, buffered audio, and a deferred
commit request queued. -/
def c1cState : SessionState :=
  { liveState with responseInProgress := true,
                   hasNewAudioSinceLastCommit := true,
                   audioBuffer := [[1, 2, 3]], pendingAudioBytes := 6,
                   pendingCommitRequest := some ⟨true, "speech_stopped"⟩ }

/-- C1 counterexample: with a deferred request recorded, an arriving
`response.error` emits no `response.create`, discards the deferred request
(the slot becomes empty), and even a following `response.done` replays
nothing — refuting the claim that after the next `response.done` or
`response.error` the deferred request is replayed, yielding exactly one new
`response.create`. -/
theorem c1_counterexample :
    c1cState.pendingCommitRequest = some ⟨true, "speech_stopped"⟩ ∧
    (step c1cState .responseError).2 = [] ∧
    (step c1cState .responseError).1.pendingCommitRequest = none ∧
    (step (step c1cState .responseError).1 .responseDone).2 = [] := by
  exact ⟨rfl, rfl, rfl, by decide⟩

/-- C1 amended: (i) across any benign event trace (no commit-rejection,
server-error or transport-failure events), at most one `response.create` is
outstanding at any time; (ii) a commit request arriving while a response is
in progress emits nothing; (iii) on `response.done` with a deferred request,
new audio and a non-empty buffer, the bookkeeping runs and the commit
routine is re-invoked exactly once with the deferred request; (iv) on
`response.error` the deferred request is discarded and nothing is
emitted. -/
theorem c1_single_flight_amended :
    (∀ (s0 : SessionState) (tr : List Ev), tr.all benign = true →
       outAfter s0 tr ≤ 1) ∧
    (∀ (s : SessionState) (f : Bool) (r : String),
       s.responseInProgress = true → (commitAudio s f r).2 = []) ∧
    (∀ (s : SessionState) (q : CommitReq), s.pendingCommitRequest = some q →
       s.hasNewAudioSinceLastCommit = true → s.audioBuffer ≠ [] →
       step s .responseDone =
         commitAudio
           { s with responseInProgress := false, textBuffer := "",
                    lastPublishedLength := 0, lastLoggedLength := 0,
                    responseDelivered := false, pendingCommitRequest := none }
           q.force (q.reason ++ "_post_response")) ∧
    (∀ s : SessionState, step s .responseError =
       ({ s with responseInProgress := false, pendingCommitRequest := none },
        [])) := by
  refine ⟨fun s0 tr hb => ?_, fun s f r h => ?_, fun s q hq hnew hbuf => ?_,
    fun s => rfl⟩
  · exact (foldl_inv tr (s0, 0) hb
      ⟨Nat.zero_le 1, fun h => by simp at h⟩).1
  · simp [commitAudio, h]
  · have hcond : (s.hasNewAudioSinceLastCommit && !s.audioBuffer.isEmpty)
        = true := by
      rw [Bool.and_eq_true]
      refine ⟨hnew, ?_⟩
      simp [hbuf]
    simp only [step, doneBookkeep_eq]
    simp only [hq]
    rw [if_pos hcond]

/-- Witness for C1's amended single-flight behaviour: a one-event benign
trace, a deferred (unsent) request during an active response, the single
replay on `response.done`, and the discard on `response.error`. -/
theorem c1_single_flight_amended_witness :
    outAfter liveState [Ev.responseDone] ≤ 1 ∧
    (commitAudio c1cState true ("go")).2 = [] ∧
    step c1cState .responseDone =
      commitAudio
        { c1cState with responseInProgress := false, textBuffer := "",
                        lastPublishedLength := 0, lastLoggedLength := 0,
                        responseDelivered := false, pendingCommitRequest := none }
        true ("speech_stopped" ++ "_post_response") ∧
    step c1cState .responseError =
      ({ c1cState with responseInProgress := false,
                       pendingCommitRequest := none }, []) :=
  ⟨c1_single_flight_amended.1 liveState [Ev.responseDone] (by decide),
   c1_single_flight_amended.2.1 c1cState true ("go") rfl,
   c1_single_flight_amended.2.2.1 c1cState ⟨true, "speech_stopped"⟩
     rfl rfl (by decide),
   c1_single_flight_amended.2.2.2 c1cState⟩

end CD
